import Mathlib

/-!
Shallow embedding of the `vectorious` vector library (src/vector.js): a JS
vector class over typed arrays, with an accelerated path that calls BLAS
kernels from the external `nblas` package when the element type is
`Float64Array`/`Float32Array`, and portable JS loops for every other element
type.

Modelling conventions:
* JS numbers are modelled as exact rationals; IEEE-754 rounding is abstracted
  away (the spec states every cross-path numeric equivalence only up to
  floating-point tolerance, and no claim depends on rounding noise).
* The `nblas` kernels are not part of this repository; each is defined from
  the spec's description (§4.2/§4.3) and marked `Modelled from the spec:`.
* Thrown JS exceptions are modelled as `none` / `Except.error` values.
-/

namespace Vectorious

/-- Element types of the JS typed arrays the library dispatches on.
`F64`/`F32` (`Float64Array`/`Float32Array`) take the accelerated BLAS path;
`I32` (`Int32Array`) stands in for the remaining integer typed-array element
types (Int8/16/32, Uint8/16/32, ...), which all take the portable fallback
loops. -/
inductive ElemType where
  | F64
  | F32
  | I32
  deriving DecidableEq

/-- The dispatch test `this.type === Float64Array || this.type === Float32Array`
(spread over the two `if`/`else if` arms in the source). -/
def ElemType.isFloat : ElemType → Bool
  | .F64 => true
  | .F32 => true
  | .I32 => false

/-- JS truncation toward zero of a rational number. -/
def ratTrunc (q : ℚ) : ℤ := if 0 ≤ q then ⌊q⌋ else ⌈q⌉

/-- The JS `ToInt32` conversion performed by a store into an `Int32Array`:
truncate toward zero, then wrap modulo 2^32 into the signed 32-bit range. -/
def toInt32 (q : ℚ) : ℚ :=
  let m : ℤ := ratTrunc q % 4294967296
  if m < 2147483648 then (m : ℚ) else ((m - 4294967296 : ℤ) : ℚ)

/-- The conversion applied by a JS typed-array element store.  Float stores
are the identity in the exact-rational model. -/
def coerce : ElemType → ℚ → ℚ
  | .F64, q => q
  | .F32, q => q
  | .I32, q => toInt32 q

/-- JS number results produced by the `min`/`max` scans: finite values plus
the `±Infinity` sentinels the loops start from
(`Number.POSITIVE_INFINITY` / `Number.NEGATIVE_INFINITY`). -/
inductive JSNum where
  | num (q : ℚ)
  | posInf
  | negInf
  deriving DecidableEq

/-- JS `<` restricted to the values occurring in the `min`/`max` scans. -/
def JSNum.lt : JSNum → JSNum → Bool
  | .num a, .num b => decide (a < b)
  | .num _, .posInf => true
  | .negInf, .num _ => true
  | .negInf, .posInf => true
  | _, _ => false

/-- Failure modes of `Vector.range` and its callees: `invalidRange` and
`invalidSize` are the thrown `Error('invalid range')` / `Error('invalid
size')`; `typeError` is the TypeError raised by touching an `undefined`
buffer; `rangeError` is the RangeError raised by `new type(Infinity)`. -/
inductive JSErr where
  | invalidRange
  | invalidSize
  | typeError
  | rangeError
  deriving DecidableEq

/-- A `Vector`: element-type tag plus buffer contents.  `data = none` models
the JS state in which `this.data` is `undefined` (e.g. `new Vector()` with no
argument), as distinct from an empty typed array (`some []`).  The JS object
also stores a `length` field which the code keeps equal to `data.length`
(0 while `data` is `undefined`); we derive it (`Vector.length`). -/
structure Vector where
  type : ElemType
  data : Option (List ℚ)
  deriving DecidableEq

def Vector.length (v : Vector) : ℕ :=
  match v.data with
  | none => 0
  | some xs => xs.length

/-- Modelled from the spec: the `nblas` axpy kernel (`daxpy`/`saxpy`),
`y[i] += alpha * x[i]` for `i < n` (§4.2).  The code always passes
`n = this.length`, so the result is the whole updated buffer. -/
def nblasAxpy (n : ℕ) (alpha : ℚ) (x y : List ℚ) : List ℚ :=
  (List.range n).map (fun i => y.getD i 0 + alpha * x.getD i 0)

/-- Modelled from the spec: the `nblas` dot kernel (`ddot`/`sdot`), the
scalar sum of pairwise products over the first `n` entries (§4.2). -/
def nblasDot (n : ℕ) (x y : List ℚ) : ℚ :=
  ∑ i in Finset.range n, x.getD i 0 * y.getD i 0

/-- Modelled from the spec: the `nblas` scal kernel (`dscal`/`sscal`),
multiplying every element by `alpha` (§4.2). -/
def nblasScal (n : ℕ) (alpha : ℚ) (x : List ℚ) : List ℚ :=
  (List.range n).map (fun i => alpha * x.getD i 0)

/-- Modelled from the spec: the `nblas` nrm2 kernel (`dnrm2`/`snrm2`), the
square root of the sum of squares (§4.2: plain accumulation, which "must
match the accelerated path's output"). -/
noncomputable def nblasNrm2 (n : ℕ) (x : List ℚ) : ℝ :=
  Real.sqrt ((∑ i in Finset.range n, x.getD i 0 * x.getD i 0 : ℚ) : ℝ)

/-- Modelled from the spec: the `nblas` amax kernel (`idamax`/`isamax`),
0-based index of the element with greatest magnitude, ties broken by lowest
index (§4.2); 0 when the buffer is empty. -/
def iamax (xs : List ℚ) : ℕ :=
  xs.enum.foldl (fun best p => if |xs.getD best 0| < |p.2| then p.1 else best) 0

/-- `Vector.prototype.add`, accelerated branch (vector.js:79-82):
`nblas.daxpy(this.length, 1, vector.data, 1, this.data, 1)`. -/
def Vector.addBlas (self v : Vector) : Vector :=
  { self with data := some (nblasAxpy self.length 1 (v.data.getD []) (self.data.getD [])) }

/-- `Vector.prototype.add`, portable branch (vector.js:84-85):
`this.data[i] += vector.data[i]`; the store into the receiver's typed array
coerces into the receiver's element type. -/
def Vector.addLoop (self v : Vector) : Vector :=
  { self with data := some ((List.range self.length).map (fun i =>
      coerce self.type ((self.data.getD []).getD i 0 + (v.data.getD []).getD i 0))) }

/-- `Vector.prototype.add` (vector.js:72-89): throws `'sizes do not match!'`
(modelled as `none`) when the lengths differ, returns the receiver unchanged
when both lengths are zero, otherwise dispatches on the element type. -/
def Vector.add (self v : Vector) : Option Vector :=
  if self.length ≠ v.length then none
  else if self.length = 0 then some self
  else some (if self.type.isFloat then self.addBlas v else self.addLoop v)

/-- `Vector.prototype.subtract`, accelerated branch (vector.js:113-116):
`nblas.daxpy(this.length, -1, vector.data, 1, this.data, 1)`. -/
def Vector.subtractBlas (self v : Vector) : Vector :=
  { self with data := some (nblasAxpy self.length (-1) (v.data.getD []) (self.data.getD [])) }

/-- `Vector.prototype.subtract`, portable branch.  NOTE vector.js:120 reads
`this.data[i] += vector.data[i]` — the fallback loop ADDS, a slip relative to
the method's own doc comment ("Subtracts `vector` from the current
vector."). -/
def Vector.subtractLoop (self v : Vector) : Vector :=
  { self with data := some ((List.range self.length).map (fun i =>
      coerce self.type ((self.data.getD []).getD i 0 + (v.data.getD []).getD i 0))) }

/-- `Vector.prototype.subtract` (vector.js:106-124): same shape checks and
dispatch as `add`. -/
def Vector.subtract (self v : Vector) : Option Vector :=
  if self.length ≠ v.length then none
  else if self.length = 0 then some self
  else some (if self.type.isFloat then self.subtractBlas v else self.subtractLoop v)

/-- `Vector.prototype.scale`, accelerated branch (vector.js:142-145):
`nblas.dscal`/`sscal` (the kernel receives `n = this.length = xs.length`). -/
def Vector.scaleBlas (self : Vector) (s : ℚ) : Vector :=
  { self with data := self.data.map (fun xs => nblasScal xs.length s xs) }

/-- `Vector.prototype.scale`, portable branch (vector.js:147-149):
`this.data[i] *= scalar`, iterating downward from `this.length - 1` (the
order is immaterial: the writes are independent), each store coercing into
the receiver's element type. -/
def Vector.scaleLoop (self : Vector) (s : ℚ) : Vector :=
  { self with data := self.data.map (fun xs => (List.range xs.length).map (fun i =>
      coerce self.type (xs.getD i 0 * s))) }

/-- `Vector.prototype.scale` (vector.js:141-153). -/
def Vector.scale (self : Vector) (s : ℚ) : Vector :=
  if self.type.isFloat then self.scaleBlas s else self.scaleLoop s

/-- The portable dot-product loop of `Vector.prototype.dot`
(vector.js:325-329): `result += a[i] * b[i]` for `i < l`. -/
def dotLoop (l : ℕ) (a b : List ℚ) : ℚ :=
  (List.range l).foldl (fun acc i => acc + a.getD i 0 * b.getD i 0) 0

/-- `Vector.prototype.dot` (vector.js:313-332): `none` models the thrown
`'sizes do not match'`; float element types call `nblas.ddot`/`sdot`, all
others run the portable loop. -/
def Vector.dot (self v : Vector) : Option ℚ :=
  if self.length ≠ v.length then none
  else some (if self.type.isFloat then
      nblasDot self.length (self.data.getD []) (v.data.getD [])
    else
      dotLoop self.length (self.data.getD []) (v.data.getD []))

/-- The portable sum-of-squares loop of `Vector.prototype.magnitude`
(vector.js:347-351): `result += values[i] * values[i]`. -/
def sumsqLoop (l : ℕ) (xs : List ℚ) : ℚ :=
  (List.range l).foldl (fun acc i => acc + xs.getD i 0 * xs.getD i 0) 0

/-- `Vector.prototype.magnitude` (vector.js:338-354): 0 for a zero-length
vector; float element types call `nblas.dnrm2`/`snrm2`; all others sum
squares and take `Math.sqrt`. -/
noncomputable def Vector.magnitude (v : Vector) : ℝ :=
  if v.length = 0 then 0
  else if v.type.isFloat then nblasNrm2 v.length (v.data.getD [])
  else Real.sqrt ((sumsqLoop v.length (v.data.getD []) : ℚ) : ℝ)

/-- `Vector.prototype.angle` (vector.js:371-373):
`Math.acos(this.dot(vector) / this.magnitude() * vector.magnitude())` with
the literal JS operator precedence, i.e. `(dot / ‖this‖) * ‖other‖`. -/
noncomputable def Vector.angle (self v : Vector) : Option ℝ :=
  (self.dot v).map (fun d => Real.arccos ((d : ℝ) / self.magnitude * v.magnitude))

/-- `Vector.prototype.combine` (vector.js:487-502): allocates a fresh buffer
of the receiver's element type (`var r = new this.type(l1 + l2)`), copies the
receiver's data and then the argument's data into it (each store coercing
into the receiver's element type), installs it on the receiver, and returns
the receiver.  Reads of an `undefined` buffer cannot occur because the copy
loops are bounded by the corresponding lengths. -/
def Vector.combine (self v : Vector) : Vector :=
  { self with data := some (((self.data.getD []).map (coerce self.type)) ++
      ((v.data.getD []).map (coerce self.type))) }

/-- `new Vector(v)` applied to a `Vector` argument (vector.js:45-46): the
constructor starts from the default state (`type = Float64Array`, `length =
0`, `data` undefined) and then runs `this.combine(data)` — producing a fresh
Float64 copy of `v`. -/
def Vector.copy (v : Vector) : Vector := Vector.combine ⟨.F64, none⟩ v

/-- `Vector.prototype.project` (vector.js:189-191):
`vector.scale(this.dot(vector) / vector.dot(vector))` — it scales (hence
mutates) the ARGUMENT and returns it; `none` propagates the length-mismatch
throw from `dot`.  (Rational division by zero yields 0 where JS would produce
Infinity/NaN; no claim depends on that corner.) -/
def Vector.project (self v : Vector) : Option Vector :=
  (self.dot v).bind (fun n => (v.dot v).map (fun d => v.scale (n / d)))

/-- `Vector.project(a, b)` (vector.js:179-181): `a.project(new Vector(b))` —
the instance method is applied to a FRESH Float64 copy of `b`, so `b` itself
is never touched by the static form. -/
def Vector.projectStatic (a b : Vector) : Option Vector :=
  a.project (Vector.copy b)

/-- The scan `while (i < l && a[i] === b[i]) { i++ } ... return i === l` of
`Vector.prototype.equals`, recursing over both buffers (after the length
check both have length `l = this.length`). -/
def equalsLoop : List ℚ → List ℚ → Bool
  | [], _ => true
  | _ :: _, [] => false
  | a :: as, b :: bs => decide (a = b) && equalsLoop as bs

/-- `Vector.prototype.equals` (vector.js:390-401): false when the lengths
differ, otherwise an exact elementwise scan (no epsilon tolerance). -/
def Vector.equals (self v : Vector) : Bool :=
  if self.length ≠ v.length then false
  else equalsLoop (self.data.getD []) (v.data.getD [])

/-- The portable scan of `Vector.prototype.min` (vector.js:419-432): linear
scan starting from `Number.POSITIVE_INFINITY`. -/
def minLoop (xs : List ℚ) : JSNum :=
  xs.foldl (fun m v => if JSNum.lt (.num v) m then .num v else m) .posInf

/-- `Vector.prototype.min`: the loop bound is `values.length` with
`values = this.data`, so a vector whose buffer is `undefined` throws a
TypeError (modelled as `none`); `min` has no accelerated path. -/
def Vector.min (v : Vector) : Option JSNum := v.data.map minLoop

/-- The portable scan of `Vector.prototype.max` (vector.js:444-455): linear
scan starting from `Number.NEGATIVE_INFINITY`, bounded by `this.length` (not
`values.length`, so it runs — vacuously — even on an `undefined` buffer). -/
def maxLoop (xs : List ℚ) : JSNum :=
  xs.foldl (fun m v => if JSNum.lt m (.num v) then .num v else m) .negInf

/-- `Vector.prototype.max` (vector.js:438-456): float element types return
`this.data[nblas.idamax(this.length, this.data, 1)]` (`none` models both the
TypeError on an `undefined` buffer and the `undefined` produced by indexing
past the end of an empty one); every other type takes the portable scan. -/
def Vector.max (v : Vector) : Option JSNum :=
  if v.type.isFloat then
    v.data.bind (fun xs => (xs[iamax xs]?).map JSNum.num)
  else
    some (maxLoop (v.data.getD []))

/-- Body of `Vector.range` after the bounds swap (vector.js:287-295).
`start`/`endv` are the possibly-swapped bounds (so `endv - start ≥ 0` at
every call site) and `backwards` records whether the swap happened.  In
order, this models:
* the `if (step > end - start) throw 'invalid range'` check (raw `step`,
  not its absolute value);
* the JS division corner cases inside
  `Vector.zeros(Math.ceil((end - start) / step), type)` when `step = 0`:
  `0/0` is `NaN`, `Math.ceil(NaN)` is `NaN`, and `new type(NaN)` is an empty
  typed array (so an empty buffer-backed vector is returned), while
  `(end-start)/0` with `end - start > 0` is `+Infinity` and
  `new type(Infinity)` throws a RangeError;
* `Vector.zeros(count)`: `count < 0` throws `'invalid size'`; `count === 0`
  (including `-0`) returns a bufferless `new Vector()` — so if the fill loop
  then executes at all (`start < end`), its first write hits `undefined` and
  throws a TypeError;
* the fill loop
  `for (i = start, j = 0; i < end; i += step, j++)
     vector.data[j] = backwards ? end - i + start : i`
  over a zero-filled buffer of length `Math.ceil((end - start) / step)`
  (slots the loop never reaches stay 0; when `count ≥ 1` one shows
  `step > 0`, so the loop writes exactly the guarded indices below). -/
def rangeGo (start step endv : ℚ) (backwards : Bool) (ty : ElemType) : Except JSErr Vector :=
  if step > endv - start then .error .invalidRange
  else if step = 0 then
    (if endv - start = 0 then .ok ⟨ty, some []⟩ else .error .rangeError)
  else if ⌈(endv - start) / step⌉ < 0 then .error .invalidSize
  else if ⌈(endv - start) / step⌉ = 0 then
    (if start < endv then .error .typeError else .ok ⟨.F64, none⟩)
  else
    .ok ⟨ty, some ((List.range (⌈(endv - start) / step⌉).toNat).map (fun (j : ℕ) =>
      if start + (j : ℚ) * step < endv then
        (if backwards then endv - (start + (j : ℚ) * step) + start else start + (j : ℚ) * step)
      else 0))⟩

/-- The bounds swap of `Vector.range` (vector.js:280-285): if
`end - start < 0` the two bounds are exchanged and `backwards` is set. -/
def rangeCore (start0 step end0 : ℚ) (ty : ElemType) : Except JSErr Vector :=
  if end0 - start0 < 0 then rangeGo end0 step start0 true ty
  else rangeGo start0 step end0 false ty

/-- `Vector.range` (vector.js:256-296): variadic; an optional trailing
element-type argument (`tyArg`, defaulting to `Float64Array`) is popped
first; then 2 positional arguments mean `(start, end)` with `step = 1`,
3 mean `(start, step, end)`, and any other count throws
`'invalid range'`. -/
def Vector.range (args : List ℚ) (tyArg : Option ElemType) : Except JSErr Vector :=
  match args with
  | [a, b] => rangeCore a 1 b (tyArg.getD .F64)
  | [a, b, c] => rangeCore a b c (tyArg.getD .F64)
  | _ => .error .invalidRange

/-- Follows the spec's words (§3, claim C2): "re-materializing the right-hand
operand into the left-hand operand's element type before the kernel call" —
rebuilding the operand's buffer with every element converted to the given
element type.  The source never does this; this definition exists to state
claim C2 and its counterexample. -/
def rematerialize (ty : ElemType) (v : Vector) : Vector :=
  ⟨ty, v.data.map (List.map (coerce ty))⟩

end Vectorious

deriving instance DecidableEq for Except

namespace Vectorious

/-! ### Supporting lemmas -/

lemma coerce_float (ty : ElemType) (h : ty.isFloat = true) (q : ℚ) : coerce ty q = q := by
  cases ty
  · rfl
  · rfl
  · simp [ElemType.isFloat] at h

lemma Vector.length_eq_data (v : Vector) : v.length = (v.data.getD []).length := by
  cases h : v.data <;> simp [Vector.length, h]

lemma foldl_add_range (f : ℕ → ℚ) :
    ∀ (n : ℕ) (init : ℚ),
      (List.range n).foldl (fun acc i => acc + f i) init = init + ∑ i in Finset.range n, f i := by
  intro n
  induction n with
  | zero => intro init; simp
  | succ n ih =>
      intro init
      rw [List.range_succ, List.foldl_append, ih, Finset.sum_range_succ]
      simp [add_assoc]

lemma equalsLoop_eq : ∀ (xs ys : List ℚ), xs.length = ys.length →
    equalsLoop xs ys = decide (xs = ys)
  | [], [], _ => rfl
  | [], _ :: _, h => by simp at h
  | _ :: _, [], h => by simp at h
  | a :: as, b :: bs, h => by
      have ih := equalsLoop_eq as bs (by simpa using h)
      by_cases hab : a = b <;> simp [equalsLoop, hab, ih]

lemma list_map_congr {l : List ℕ} {f g : ℕ → ℚ} (h : ∀ a ∈ l, f a = g a) :
    l.map f = l.map g := by
  induction l with
  | nil => rfl
  | cons x xs ih => simp_all

lemma range_map_getD : ∀ (xs : List ℚ), (List.range xs.length).map (fun i => xs.getD i 0) = xs
  | [] => rfl
  | x :: xs => by
      rw [List.length_cons, List.range_succ_eq_map, List.map_cons, List.map_map]
      have h2 : ((fun i => (x :: xs).getD i 0) ∘ Nat.succ) = fun i => xs.getD i 0 := by
        funext i
        simp
      rw [h2, range_map_getD xs]
      simp

lemma getD_map_range (f : ℕ → ℚ) (n i : ℕ) (d : ℚ) :
    ((List.range n).map f).getD i d = if i < n then f i else d := by
  rcases Nat.lt_or_ge i n with h | h
  · rw [List.getD_eq_getElem?_getD, List.getElem?_map, List.getElem?_range h]
    simp [h]
  · rw [List.getD_eq_getElem?_getD, List.getElem?_map,
      List.getElem?_eq_none (by simpa using h)]
    simp [Nat.not_lt.mpr h]

lemma rangeGo_invalidRange_iff (start step endv : ℚ) (bw : Bool) (ty : ElemType) :
    rangeGo start step endv bw ty = .error .invalidRange ↔ step > endv - start := by
  unfold rangeGo
  split_ifs <;> simp_all

lemma rangeCore_invalidRange_iff (s st e : ℚ) (ty : ElemType) :
    rangeCore s st e ty = .error .invalidRange ↔ st > |e - s| := by
  unfold rangeCore
  by_cases h : e - s < 0
  · rw [if_pos h, rangeGo_invalidRange_iff, abs_of_neg h, neg_sub]
  · rw [if_neg h, rangeGo_invalidRange_iff, abs_of_nonneg (not_lt.mp h)]

/-- The axpy kernel with `alpha = -1` undoes the axpy kernel with
`alpha = 1` exactly in the rational model. -/
lemma axpy_cancel (x ys : List ℚ) :
    nblasAxpy ys.length (-1) x (nblasAxpy ys.length 1 x ys) = ys := by
  unfold nblasAxpy
  refine Eq.trans (list_map_congr (fun i hi => ?_)) (range_map_getD ys)
  rw [List.mem_range] at hi
  rw [getD_map_range, if_pos hi]
  ring

/-- On the accelerated (float) path the add/subtract round-trip DOES hold
exactly in the rational model: `daxpy` with `alpha = 1` followed by
`alpha = -1` restores the receiver.  This isolates the failure of the C1
round-trip to the portable fallback branch of `subtract`. -/
lemma roundtrip_float (ty : ElemType) (ys : List ℚ) (b : Vector)
    (hf : ty.isFloat = true) (hl : ys.length = b.length) :
    ((⟨ty, some ys⟩ : Vector).add b).bind (fun r => r.subtract b) =
      some ⟨ty, some ys⟩ := by
  have hlenb : (⟨ty, some ys⟩ : Vector).length = b.length := hl
  by_cases h0 : ys.length = 0
  · unfold Vector.add Vector.subtract
    rw [if_neg (by simp [hlenb]), if_pos (by simpa [Vector.length] using h0)]
    simp only [Option.some_bind]
    rw [if_neg (by simp [hlenb]), if_pos (by simpa [Vector.length] using h0)]
  · have hadd : (⟨ty, some ys⟩ : Vector).add b =
        some (Vector.addBlas ⟨ty, some ys⟩ b) := by
      unfold Vector.add
      rw [if_neg (by simp [hlenb]), if_neg (by simpa [Vector.length] using h0),
        if_pos hf]
    rw [hadd, Option.some_bind]
    have hb : Vector.addBlas ⟨ty, some ys⟩ b =
        (⟨ty, some (nblasAxpy ys.length 1 (b.data.getD []) ys)⟩ : Vector) := rfl
    rw [hb]
    have hblen : (⟨ty, some (nblasAxpy ys.length 1 (b.data.getD []) ys)⟩ : Vector).length =
        ys.length := by
      simp [Vector.length, nblasAxpy]
    unfold Vector.subtract
    rw [if_neg (by rw [hblen]; simp [hl]), if_neg (by rw [hblen]; exact h0), if_pos hf]
    have hsub : Vector.subtractBlas
        (⟨ty, some (nblasAxpy ys.length 1 (b.data.getD []) ys)⟩ : Vector) b =
        (⟨ty, some (nblasAxpy
          (nblasAxpy ys.length 1 (b.data.getD []) ys).length (-1) (b.data.getD [])
          (nblasAxpy ys.length 1 (b.data.getD []) ys))⟩ : Vector) := by
      unfold Vector.subtractBlas
      simp [Vector.length, nblasAxpy]
    rw [hsub]
    have hn : (nblasAxpy ys.length 1 (b.data.getD []) ys).length = ys.length := by
      simp [nblasAxpy]
    rw [hn, axpy_cancel]

/-! ### Claim theorems -/

/-- C1: the claimed add-then-subtract round-trip FAILS on the code for
non-float element types: with `Int32Array` buffers `a = [1]`, `b = [2]`,
`a.add(b).subtract(b)` evaluates to `[5]`, not to `a = [1]` — the portable
fallback loop of `subtract` (vector.js:120) reads `+=`, so it adds.  This
theorem evaluates the code at the failing input of the code_bug verdict. -/
theorem c1_roundtrip_code_bug_eval :
    ((⟨.I32, some [1]⟩ : Vector).add ⟨.I32, some [2]⟩).bind
        (fun r => r.subtract ⟨.I32, some [2]⟩) = some ⟨.I32, some [5]⟩ ∧
      (⟨.I32, some [5]⟩ : Vector) ≠ ⟨.I32, some [1]⟩ := by
  constructor
  · norm_num [Vector.add, Vector.subtract, Vector.addLoop, Vector.subtractLoop,
      Vector.length, ElemType.isFloat, coerce, toInt32, ratTrunc, List.range_succ]
  · decide

/-- C2 counterexample: with receiver `a = Int32Array [1]` and right-hand
operand `b = Float64Array [1.5]`, the code's `equals` kernel compares the RAW
right-hand values (`1 === 1.5`, false), whereas re-materializing `b` into the
receiver's element type first — what the claim asserts always happens —
would compare `1 === 1` and return true.  `dot` likewise multiplies raw
values (returning 1/2, a value not even representable in the receiver's
element type) where the claimed behavior would return 0.  So no right-hand
re-materialization happens before these kernel calls. -/
theorem c2_no_rematerialize_cex :
    Vector.equals ⟨.I32, some [1]⟩ ⟨.F64, some [3/2]⟩ = false ∧
      Vector.equals ⟨.I32, some [1]⟩ (rematerialize .I32 ⟨.F64, some [3/2]⟩) = true ∧
      Vector.dot ⟨.I32, some [1]⟩ ⟨.F64, some [1/2]⟩ = some (1/2) ∧
      Vector.dot ⟨.I32, some [1]⟩ (rematerialize .I32 ⟨.F64, some [1/2]⟩) = some 0 := by
  refine ⟨?_, ?_, ?_, ?_⟩
  · norm_num [Vector.equals, equalsLoop, Vector.length]
  · norm_num [Vector.equals, equalsLoop, Vector.length, rematerialize, coerce,
      toInt32, ratTrunc]
  · norm_num [Vector.dot, dotLoop, Vector.length, ElemType.isFloat, List.range_succ]
  · norm_num [Vector.dot, dotLoop, Vector.length, ElemType.isFloat, List.range_succ,
      rematerialize, coerce, toInt32, ratTrunc]

/-- C2 amended: the binary operations invoke their kernels on the right-hand
operand's raw element values — no operand re-materialization occurs — yet
the result element type still always equals the receiver's: `add` and
`subtract` mutate the receiver in place, and `combine` allocates its new
buffer with `new this.type(l1 + l2)`, so the appended right-hand data is
converted elementwise (by the typed-array stores) into the receiver's
element type at that point. -/
theorem c2_receiver_type_preserved (a b : Vector) :
    (∀ r, a.add b = some r → r.type = a.type) ∧
    (∀ r, a.subtract b = some r → r.type = a.type) ∧
    (a.combine b).type = a.type ∧
    (a.combine b).data =
      some (((a.data.getD []).map (coerce a.type)) ++
        ((b.data.getD []).map (coerce a.type))) := by
  refine ⟨?_, ?_, rfl, rfl⟩
  · intro r h
    unfold Vector.add at h
    by_cases h1 : a.length ≠ b.length
    · rw [if_pos h1] at h
      exact absurd h (by simp)
    · rw [if_neg h1] at h
      by_cases h2 : a.length = 0
      · rw [if_pos h2] at h
        obtain rfl := Option.some.inj h
        rfl
      · rw [if_neg h2] at h
        obtain rfl := Option.some.inj h
        split_ifs <;> rfl
  · intro r h
    unfold Vector.subtract at h
    by_cases h1 : a.length ≠ b.length
    · rw [if_pos h1] at h
      exact absurd h (by simp)
    · rw [if_neg h1] at h
      by_cases h2 : a.length = 0
      · rw [if_pos h2] at h
        obtain rfl := Option.some.inj h
        rfl
      · rw [if_neg h2] at h
        obtain rfl := Option.some.inj h
        split_ifs <;> rfl

/-- C2 witness: the amended theorem applied at a concrete input (the `add`
conjunct, its hypothesis discharged by evaluation). -/
theorem c2_receiver_type_witness :
    (⟨ElemType.F64, some [3]⟩ : Vector).type = ElemType.F64 :=
  (c2_receiver_type_preserved ⟨.F64, some [1]⟩ ⟨.F64, some [2]⟩).1
    ⟨.F64, some [3]⟩ (by norm_num [Vector.add, Vector.addBlas, nblasAxpy,
      Vector.length, ElemType.isFloat, List.range_succ])

/-- C3: `equals` is reflexive; it returns false whenever the lengths differ;
and for equal lengths it returns true iff the two buffers are exactly
elementwise equal (no epsilon tolerance). -/
theorem c3_equals_structural :
    (∀ v : Vector, v.equals v = true) ∧
    (∀ a b : Vector, a.length ≠ b.length → a.equals b = false) ∧
    (∀ a b : Vector, a.length = b.length →
      (a.equals b = true ↔ a.data.getD [] = b.data.getD [])) := by
  have key : ∀ a b : Vector, a.length = b.length →
      a.equals b = decide (a.data.getD [] = b.data.getD []) := by
    intro a b h
    unfold Vector.equals
    rw [if_neg (by simpa using h)]
    exact equalsLoop_eq _ _ (by rw [← Vector.length_eq_data, ← Vector.length_eq_data, h])
  refine ⟨fun v => ?_, fun a b h => ?_, fun a b h => ?_⟩
  · rw [key v v rfl]
    simp
  · unfold Vector.equals
    rw [if_pos h]
  · rw [key a b h]
    simp

/-- C3 witness: the length-mismatch conjunct applied at concrete vectors. -/
theorem c3_equals_witness :
    Vector.equals ⟨ElemType.F64, some [1]⟩ ⟨ElemType.F64, some []⟩ = false :=
  c3_equals_structural.2.1 ⟨.F64, some [1]⟩ ⟨.F64, some []⟩ (by decide)

/-- C4 counterexample: with `a = Float64Array [1, 0]` and
`b = Float32Array [2, 0]`, the static `Vector.project(a, b)` returns a fresh
`Float64` vector `[1, 0]` (a scaled copy of `b`), while the behavior the
claim asserts — applying the mutating instance method to `b` itself — would
mutate-and-return the `Float32` vector `[1, 0]`.  The two results differ
already in their element type, so the returned vector is not `b` (nor any
in-place mutation of it) but a fresh default-typed allocation. -/
theorem c4_static_project_cex :
    Vector.projectStatic ⟨.F64, some [1, 0]⟩ ⟨.F32, some [2, 0]⟩ =
        some ⟨.F64, some [1, 0]⟩ ∧
      Vector.project ⟨.F64, some [1, 0]⟩ ⟨.F32, some [2, 0]⟩ =
        some ⟨.F32, some [1, 0]⟩ ∧
      (⟨.F64, some [1, 0]⟩ : Vector) ≠ ⟨.F32, some [1, 0]⟩ := by
  refine ⟨?_, ?_, by decide⟩
  · norm_num [Vector.projectStatic, Vector.project, Vector.copy, Vector.combine,
      Vector.dot, Vector.scale, Vector.scaleBlas, Vector.scaleLoop, nblasDot,
      nblasScal, coerce, Vector.length, ElemType.isFloat, List.range_succ,
      Finset.sum_range_succ]
  · norm_num [Vector.project, Vector.dot, Vector.scale, Vector.scaleBlas,
      Vector.scaleLoop, nblasDot, nblasScal, coerce, Vector.length,
      ElemType.isFloat, List.range_succ, Finset.sum_range_succ]

/-- C4 amended: the static `Vector.project(a, b)` first copies `b` into a
fresh vector of the default `Float64Array` element type (`new Vector(b)`),
scales that copy, and returns it; `b` itself is left untouched.  (It is the
INSTANCE form `a.project(v)` that mutates and returns its argument.)  Every
successful result is the scaled Float64 copy of `b`, never `b`. -/
theorem c4_static_project_fresh (a b res : Vector)
    (h : Vector.projectStatic a b = some res) :
    res.type = ElemType.F64 ∧
    res = Vector.scale (Vector.copy b)
      (((a.dot (Vector.copy b)).getD 0) /
        (((Vector.copy b).dot (Vector.copy b)).getD 0)) := by
  unfold Vector.projectStatic Vector.project at h
  cases hn : a.dot (Vector.copy b) with
  | none =>
      rw [hn] at h
      exact absurd h (by simp)
  | some n =>
      cases hd : (Vector.copy b).dot (Vector.copy b) with
      | none =>
          rw [hn, hd] at h
          exact absurd h (by simp)
      | some d =>
          rw [hn, hd] at h
          simp only [Option.some_bind, Option.map_some] at h
          obtain rfl := Option.some.inj h
          constructor
          · unfold Vector.scale Vector.scaleBlas Vector.scaleLoop Vector.copy
              Vector.combine
            split_ifs <;> rfl
          · simp

/-- C4 witness: the amended theorem applied at `a = Float64Array [4, 2]`,
`b = Float32Array [2, 0]` (static projection result `[4, 0]`), its
hypothesis discharged by evaluation. -/
theorem c4_static_project_witness :
    (⟨ElemType.F64, some [4, 0]⟩ : Vector).type = ElemType.F64 ∧
    (⟨ElemType.F64, some [4, 0]⟩ : Vector) =
      Vector.scale (Vector.copy ⟨ElemType.F32, some [2, 0]⟩)
        ((((⟨ElemType.F64, some [4, 2]⟩ : Vector).dot
            (Vector.copy ⟨ElemType.F32, some [2, 0]⟩)).getD 0) /
          (((Vector.copy ⟨ElemType.F32, some [2, 0]⟩).dot
            (Vector.copy ⟨ElemType.F32, some [2, 0]⟩)).getD 0)) :=
  c4_static_project_fresh ⟨.F64, some [4, 2]⟩ ⟨.F32, some [2, 0]⟩
    ⟨.F64, some [4, 0]⟩
    (by norm_num [Vector.projectStatic, Vector.project, Vector.copy, Vector.combine,
      Vector.dot, Vector.scale, Vector.scaleBlas, Vector.scaleLoop, nblasDot,
      nblasScal, coerce, Vector.length, ElemType.isFloat, List.range_succ,
      Finset.sum_range_succ])

/-- C5: for float element types (the only ones with an accelerated path) the
accelerated BLAS kernels and the portable elementwise loops agree exactly in
the rational model, operation by operation: add (axpy), scale (scal), dot,
and magnitude (nrm2). -/
theorem c5_accel_portable_equiv (a b : Vector) (s : ℚ) (hf : a.type.isFloat = true) :
    a.addBlas b = a.addLoop b ∧
    a.scaleBlas s = a.scaleLoop s ∧
    nblasDot a.length (a.data.getD []) (b.data.getD []) =
      dotLoop a.length (a.data.getD []) (b.data.getD []) ∧
    nblasNrm2 a.length (a.data.getD []) =
      Real.sqrt ((sumsqLoop a.length (a.data.getD []) : ℚ) : ℝ) := by
  refine ⟨?_, ?_, ?_, ?_⟩
  · unfold Vector.addBlas Vector.addLoop nblasAxpy
    simp [coerce_float a.type hf, one_mul]
  · unfold Vector.scaleBlas Vector.scaleLoop nblasScal
    simp [coerce_float a.type hf, mul_comm]
  · unfold nblasDot dotLoop
    rw [foldl_add_range]
    simp
  · unfold nblasNrm2 sumsqLoop
    rw [foldl_add_range]
    simp

/-- C5 witness: the theorem applied at concrete `Float64` vectors `[1, 2]`,
`[3, 4]` and scalar 2, its float-type hypothesis discharged by `rfl`. -/
theorem c5_accel_portable_witness :
    (⟨ElemType.F64, some [1, 2]⟩ : Vector).addBlas ⟨ElemType.F64, some [3, 4]⟩ =
        (⟨ElemType.F64, some [1, 2]⟩ : Vector).addLoop ⟨ElemType.F64, some [3, 4]⟩ ∧
      (⟨ElemType.F64, some [1, 2]⟩ : Vector).scaleBlas 2 =
        (⟨ElemType.F64, some [1, 2]⟩ : Vector).scaleLoop 2 ∧
      nblasDot (⟨ElemType.F64, some [1, 2]⟩ : Vector).length
          ((⟨ElemType.F64, some [1, 2]⟩ : Vector).data.getD [])
          ((⟨ElemType.F64, some [3, 4]⟩ : Vector).data.getD []) =
        dotLoop (⟨ElemType.F64, some [1, 2]⟩ : Vector).length
          ((⟨ElemType.F64, some [1, 2]⟩ : Vector).data.getD [])
          ((⟨ElemType.F64, some [3, 4]⟩ : Vector).data.getD []) ∧
      nblasNrm2 (⟨ElemType.F64, some [1, 2]⟩ : Vector).length
          ((⟨ElemType.F64, some [1, 2]⟩ : Vector).data.getD []) =
        Real.sqrt ((sumsqLoop (⟨ElemType.F64, some [1, 2]⟩ : Vector).length
          ((⟨ElemType.F64, some [1, 2]⟩ : Vector).data.getD []) : ℚ) : ℝ) :=
  c5_accel_portable_equiv ⟨.F64, some [1, 2]⟩ ⟨.F64, some [3, 4]⟩ 2 rfl

/-- C6: `range(0, 1, 5)` yields `[0, 1, 2, 3, 4]`; and for a descending
request (`end < start`, with `0 < step ≤ start - end`) the implementation
swaps the bounds and fills the buffer in reversed order
(`end - i + start`), producing the arithmetic sequence that starts at
`start` and steps downward, still stopping before `end` — in particular
`range(5, 1, 0)` yields `[5, 4, 3, 2, 1]`. -/
theorem c6_range_swap_reverse :
    Vector.range [0, 1, 5] none = .ok ⟨.F64, some [0, 1, 2, 3, 4]⟩ ∧
    Vector.range [5, 1, 0] none = .ok ⟨.F64, some [5, 4, 3, 2, 1]⟩ ∧
    ∀ (s st e : ℚ), e < s → 0 < st → st ≤ s - e →
      Vector.range [s, st, e] none =
        .ok ⟨.F64, some ((List.range (⌈(s - e) / st⌉).toNat).map
          (fun (j : ℕ) => s - (j : ℚ) * st))⟩ := by
  refine ⟨?_, ?_, ?_⟩
  · have step1 : Vector.range [0, 1, 5] none = rangeCore 0 1 5 .F64 := rfl
    rw [step1]
    unfold rangeCore rangeGo
    rw [show (⌈((5 : ℚ) - 0) / 1⌉ : ℤ) = 5 by norm_num, show Int.toNat 5 = 5 from rfl]
    norm_num [List.range_succ]
  · have step1 : Vector.range [5, 1, 0] none = rangeCore 5 1 0 .F64 := rfl
    rw [step1]
    unfold rangeCore rangeGo
    rw [show (⌈((5 : ℚ) - 0) / 1⌉ : ℤ) = 5 by norm_num, show Int.toNat 5 = 5 from rfl]
    norm_num [List.range_succ]
  · intro s st e he hst hle
    have hq : 0 < (s - e) / st := div_pos (by linarith) hst
    have hcount : (0 : ℤ) < ⌈(s - e) / st⌉ := Int.ceil_pos.mpr hq
    have step1 : Vector.range [s, st, e] none = rangeCore s st e .F64 := rfl
    rw [step1]
    unfold rangeCore
    rw [if_pos (by linarith : e - s < 0)]
    unfold rangeGo
    rw [if_neg (by linarith : ¬ st > s - e), if_neg (ne_of_gt hst),
      if_neg (by omega : ¬ ⌈(s - e) / st⌉ < 0), if_neg (by omega : ¬ ⌈(s - e) / st⌉ = 0)]
    congr 3
    refine list_map_congr (fun j hj => ?_)
    rw [List.mem_range] at hj
    have hjz : (j : ℤ) < ⌈(s - e) / st⌉ := Int.lt_toNat.mp hj
    have hq2 : (j : ℚ) < (s - e) / st := by exact_mod_cast Int.lt_ceil.mp hjz
    have hlt : e + (j : ℚ) * st < s := by
      have h3 := (lt_div_iff₀ hst).mp hq2
      linarith
    rw [if_pos hlt]
    simp only [if_true]
    ring

/-- C6 witness: the descending conjunct applied at `range(5, 1, 0)`, its
hypotheses discharged numerically. -/
theorem c6_range_witness :
    Vector.range [5, 1, 0] none =
      .ok ⟨.F64, some ((List.range (⌈((5 : ℚ) - 0) / 1⌉).toNat).map
        (fun (j : ℕ) => 5 - (j : ℚ) * 1))⟩ :=
  c6_range_swap_reverse.2.2 5 1 0 (by norm_num) (by norm_num) (by norm_num)

/-- C7 counterexample: `range(0, -6, 5)` has `|step| = 6 > 5 = |end - start|`,
so by the claim it should fail with `InvalidRange`; but the code compares the
RAW step (`-6 > 5` is false), computes `Math.ceil(5 / -6) = -0`, obtains the
bufferless zero-length vector from `Vector.zeros(0)`, and the fill loop
(whose entry condition `0 < 5` holds) then writes to the `undefined` buffer —
a TypeError, not `InvalidRange`. -/
theorem c7_invalidRange_cex :
    Vector.range [0, -6, 5] none = .error .typeError ∧
      JSErr.typeError ≠ JSErr.invalidRange ∧
      |(-6 : ℚ)| > |(5 : ℚ) - 0| := by
  refine ⟨?_, by decide, by norm_num⟩
  have step1 : Vector.range [0, -6, 5] none = rangeCore 0 (-6) 5 .F64 := rfl
  rw [step1]
  unfold rangeCore rangeGo
  rw [show (⌈((5 : ℚ) - 0) / (-6)⌉ : ℤ) = 0 by norm_num]
  norm_num

/-- C7 amended: `Vector.range` throws `'invalid range'` exactly when the
number of positional arguments (after removing the optional trailing
element-type argument) is not 2 or 3, or when the RAW (signed) step exceeds
`|end - start|` (for a 2-argument call the implicit step is 1).  A negative
step of large magnitude does NOT raise `InvalidRange`: it falls through to
an `'invalid size'` throw, a TypeError, or an empty result; and a call with
4 or more positional arguments DOES raise it. -/
theorem c7_invalidRange_iff (args : List ℚ) (tyArg : Option ElemType) :
    Vector.range args tyArg = .error .invalidRange ↔
      (match args with
       | [a, b] => (1 : ℚ) > |b - a|
       | [a, b, c] => b > |c - a|
       | _ => True) := by
  match args with
  | [] => simp [Vector.range]
  | [a] => simp [Vector.range]
  | [a, b] => simpa [Vector.range] using rangeCore_invalidRange_iff a 1 b (tyArg.getD .F64)
  | [a, b, c] => simpa [Vector.range] using rangeCore_invalidRange_iff a b c (tyArg.getD .F64)
  | a :: b :: c :: d :: rest => simp [Vector.range]

/-- C7 witness: the amended characterization applied at `range(0, 1, 5)`
(step within bounds, hence no `'invalid range'` throw). -/
theorem c7_invalidRange_witness :
    Vector.range [(0 : ℚ), 1, 5] none ≠ .error .invalidRange := by
  intro h
  have h2 := (c7_invalidRange_iff [(0 : ℚ), 1, 5] none).mp h
  have h3 : ¬ ((1 : ℚ) > |(5 : ℚ) - (0 : ℚ)|) := by norm_num
  exact h3 h2

/-- C8: `add` and `subtract` fail (`'sizes do not match'`) exactly when the
two operand lengths differ; and when both operands have length zero they
return the receiver unchanged, short-circuiting before any kernel
dispatch. -/
theorem c8_shape_mismatch_noop (a b : Vector) :
    ((a.add b = none) ↔ a.length ≠ b.length) ∧
    ((a.subtract b = none) ↔ a.length ≠ b.length) ∧
    (a.length = 0 → b.length = 0 → a.add b = some a ∧ a.subtract b = some a) := by
  unfold Vector.add Vector.subtract
  refine ⟨?_, ?_, ?_⟩ <;> split_ifs <;> simp_all
  omega

/-- C8 witness: the zero-length no-op conjunct applied at two zero-length
vectors (one bufferless, one with an empty buffer). -/
theorem c8_shape_witness :
    (⟨ElemType.F64, none⟩ : Vector).add ⟨ElemType.I32, some []⟩ =
        some ⟨ElemType.F64, none⟩ ∧
      (⟨ElemType.F64, none⟩ : Vector).subtract ⟨ElemType.I32, some []⟩ =
        some ⟨ElemType.F64, none⟩ :=
  (c8_shape_mismatch_noop ⟨.F64, none⟩ ⟨.I32, some []⟩).2.2 rfl rfl

/-- The magnitude of the `Float64` vector `[3, 4]` evaluates to 5. -/
lemma magnitude_eval_34 : (⟨.F64, some [3, 4]⟩ : Vector).magnitude = 5 := by
  unfold Vector.magnitude nblasNrm2
  rw [if_neg (by decide)]
  norm_num [ElemType.isFloat, Vector.length, Finset.sum_range_succ]
  rw [show (25 : ℝ) = 5 * 5 by norm_num]
  exact Real.sqrt_mul_self (by norm_num)

/-- The magnitude of the `Float64` vector `[6, 8]` evaluates to 10. -/
lemma magnitude_eval_68 : (⟨.F64, some [6, 8]⟩ : Vector).magnitude = 10 := by
  unfold Vector.magnitude nblasNrm2
  rw [if_neg (by decide)]
  norm_num [ElemType.isFloat, Vector.length, Finset.sum_range_succ]
  rw [show (100 : ℝ) = 10 * 10 by norm_num]
  exact Real.sqrt_mul_self (by norm_num)

/-- C9: `angle` applies `Math.acos` to
`this.dot(vector) / this.magnitude() * vector.magnitude()`, which by the
literal JS operator precedence is `(dot / ‖this‖) * ‖other‖`, NOT
`dot / (‖this‖ * ‖other‖)`: for every pair of vectors the acos argument is
the left-associated product (first conjunct), and at `a = [3, 4]`,
`b = [6, 8]` (magnitudes 5 and 10, dot 50) the code's acos argument is 100
while the standard formula's would be 1. -/
theorem c9_angle_precedence :
    (∀ a b : Vector, a.angle b =
      (a.dot b).map (fun d => Real.arccos (((d : ℝ) / a.magnitude) * b.magnitude))) ∧
    (⟨.F64, some [3, 4]⟩ : Vector).dot ⟨.F64, some [6, 8]⟩ = some 50 ∧
    ((50 : ℝ) / (⟨.F64, some [3, 4]⟩ : Vector).magnitude *
      (⟨.F64, some [6, 8]⟩ : Vector).magnitude) = 100 ∧
    ((50 : ℝ) / ((⟨.F64, some [3, 4]⟩ : Vector).magnitude *
      (⟨.F64, some [6, 8]⟩ : Vector).magnitude)) = 1 ∧
    (100 : ℝ) ≠ 1 := by
  refine ⟨fun a b => rfl, ?_, ?_, ?_, by norm_num⟩
  · norm_num [Vector.dot, nblasDot, Vector.length, ElemType.isFloat,
      Finset.sum_range_succ]
  · rw [magnitude_eval_34, magnitude_eval_68]
    norm_num
  · rw [magnitude_eval_34, magnitude_eval_68]
    norm_num

/-- C10: for a zero-length vector backed by an (empty) buffer, `min()`
returns `+Infinity`, and the portable path of `max()` — the one taken by
every non-float element type — returns `-Infinity`; neither raises an
error. -/
theorem c10_empty_min_max (v : Vector) (h : v.data = some []) :
    v.min = some JSNum.posInf ∧
      (v.type.isFloat = false → v.max = some JSNum.negInf) := by
  constructor
  · simp [Vector.min, h, minLoop]
  · intro hf
    simp [Vector.max, hf, h, maxLoop]

/-- C10 witness: the theorem applied at the empty `Int32Array`-backed
vector. -/
theorem c10_empty_witness :
    (⟨ElemType.I32, some []⟩ : Vector).min = some JSNum.posInf ∧
      (⟨ElemType.I32, some []⟩ : Vector).max = some JSNum.negInf :=
  ⟨(c10_empty_min_max ⟨.I32, some []⟩ rfl).1,
    (c10_empty_min_max ⟨.I32, some []⟩ rfl).2 rfl⟩

end Vectorious
